import Mathlib

/-!
Verification of the eventual-consistency polling / retry contract of the
terraform-provider-aws repository, as a shallow embedding in Lean 4.

The embedding covers:
 * the EC2 status reducers of `internal/service/ec2/status.go`
   (`StatusCarrierGatewayState`, `StatusClientVPNEndpoint`,
   `StatusRouteTable`, `StatusSubnetMapCustomerOwnedIPOnLaunch`,
   `StatusVPCPeeringConnection`, `StatusEBSSnapshotImport`), and
 * the sweep orchestrator of `internal/sweep/sweep.go`
   (`SweepOrchestratorContext`, `SkipSweepError`,
   `SharedRegionalSweepClient`).

Go pointers become `Option`, Go `(value, err)` results become a pair of
`Option`s, and Go strings become Lean `String`s.  Helper functions of the
AWS SDK (`aws.StringValue`, `aws.BoolValue`) and of
`hashicorp/aws-sdk-go-base/tfawserr` (`ErrCodeEquals`,
`ErrMessageContains`) are modelled by their documented behaviour on the
structured error value below.  Repository code that is referenced but not
part of the source tree (`internal/tfresource`) is modelled from the
specification and marked as such in its doc comment.
-/

namespace TFAWS

/-- `aws.StringValue`: dereference a Go string pointer, where `nil`
dereferences to the empty string. -/
def stringValue (s : Option String) : String := s.getD ""

/-- `aws.BoolValue`: dereference a Go bool pointer, where `nil`
dereferences to `false`. -/
def boolValue (b : Option Bool) : Bool := b.getD false

/-- `strconv.FormatBool`: render a Go bool as `"true"` or `"false"`. -/
def formatBool (b : Bool) : String := if b then "true" else "false"

/-- Whether the first character list starts with the second one
(`strings.HasPrefix` on rune lists). -/
def listStartsWith : List Char → List Char → Bool
  | _, [] => true
  | [], _ :: _ => false
  | a :: as, b :: bs => a == b && listStartsWith as bs

/-- Whether the character list `hay` has `needle` as a contiguous
sub-list, checked at every suffix of `hay`. -/
def listContainsSub (needle : List Char) : List Char → Bool
  | [] => listStartsWith [] needle
  | h :: t => listStartsWith (h :: t) needle || listContainsSub needle t

/-- `strings.Contains s pat`: `pat` occurs as a substring of `s`. -/
def strContains (s pat : String) : Bool := listContainsSub pat.toList s.toList

/-- A Go `error` value as the reducers and the sweeper observe it:
either a coded AWS API error (an `awserr.Error` with a code and a
message), a `tfresource.NotFoundError`, or any other error carrying only
a message. -/
inductive GoError where
  | awsErr (code message : String)
  | notFoundErr (message : String)
  | plainErr (message : String)
deriving DecidableEq, Repr

/-- `err.Error()`: the display string of a Go error.  For an
`awserr.Error` this is the code followed by the message. -/
def GoError.errorText : GoError → String
  | .awsErr code message => code ++ ": " ++ message
  | .notFoundErr message => message
  | .plainErr message => message

/-- `tfawserr.ErrCodeEquals(err, code)`: `err` (which may be `nil`) is an
AWS API error whose code equals `code`. -/
def errCodeEquals (err : Option GoError) (code : String) : Bool :=
  match err with
  | some (.awsErr c _) => c == code
  | _ => false

/-- `tfawserr.ErrMessageContains(err, code, msg)`: `err` is an AWS API
error whose code equals `code` and whose message contains `msg` as a
substring (the empty `msg` matches every message). -/
def errMessageContains (err : Option GoError) (code msg : String) : Bool :=
  match err with
  | some (.awsErr c m) => c == code && strContains m msg
  | _ => false

/-- Modelled from the spec: `tfresource.NotFound` (repository package
`internal/tfresource`, not under the source tree) recognizes the
`NotFoundError` class of §7 of the specification — "resource absent". -/
def isNotFoundErr (err : Option GoError) : Bool :=
  match err with
  | some (.notFoundErr _) => true
  | _ => false

/-- A `PollOutcome`: the `(interface{}, string, error)` triple returned
by one invocation of a `resource.StateRefreshFunc` closure. -/
structure Outcome (α : Type) where
  payload : Option α
  status : String
  err : Option GoError
deriving DecidableEq, Repr

/-! ### EC2 status reducers (`internal/service/ec2/status.go`)

Each closure is embedded as a function of the result of its single
describe/find call: the Go call `v, err := Find...(conn, id)` becomes the
two arguments `(v : Option _)` and `(err : Option GoError)`, quantified
over every combination the call could produce. -/

/-- `ec2.CarrierGatewayStateDeleted` (AWS SDK constant). -/
def carrierGatewayStateDeleted : String := "deleted"

/-- `tfec2.ErrCodeInvalidCarrierGatewayIDNotFound`. -/
def errCodeInvalidCarrierGatewayIDNotFound : String :=
  "InvalidCarrierGatewayID.NotFound"

/-- `carrierGatewayStateNotFound` constant of `status.go`. -/
def carrierGatewayStateNotFound : String := "NotFound"

/-- `carrierGatewayStateUnknown` constant of `status.go`. -/
def carrierGatewayStateUnknown : String := "Unknown"

/-- An `*ec2.CarrierGateway`: only the `State` field is read. -/
structure CarrierGateway where
  state : Option String
deriving DecidableEq, Repr

/-- `StatusCarrierGatewayState`: body of the returned closure, as a
function of the result of `tfec2.FindCarrierGatewayByID`. -/
def statusCarrierGatewayState
    (carrierGateway : Option CarrierGateway) (err : Option GoError) :
    Outcome CarrierGateway :=
  if errCodeEquals err errCodeInvalidCarrierGatewayIDNotFound then
    ⟨none, carrierGatewayStateNotFound, none⟩
  else if err.isSome then
    ⟨none, carrierGatewayStateUnknown, err⟩
  else
    match carrierGateway with
    | none => ⟨none, carrierGatewayStateNotFound, none⟩
    | some gw =>
      let state := stringValue gw.state
      if state == carrierGatewayStateDeleted then
        ⟨none, carrierGatewayStateNotFound, none⟩
      else
        ⟨some gw, state, none⟩

/-- `tfec2.ErrCodeClientVPNEndpointIdNotFound`. -/
def errCodeClientVPNEndpointIdNotFound : String :=
  "InvalidClientVpnEndpointId.NotFound"

/-- `ClientVPNEndpointStatusNotFound` constant of `status.go`. -/
def clientVPNEndpointStatusNotFound : String := "NotFound"

/-- `ClientVPNEndpointStatusUnknown` constant of `status.go`. -/
def clientVPNEndpointStatusUnknown : String := "Unknown"

/-- An `*ec2.ClientVpnEndpointStatus`: only the `Code` field is read. -/
structure ClientVPNEndpointStatus where
  code : Option String
deriving DecidableEq, Repr

/-- An `*ec2.ClientVpnEndpoint`: only the `Status` field is read. -/
structure ClientVPNEndpoint where
  status : Option ClientVPNEndpointStatus
deriving DecidableEq, Repr

/-- `StatusClientVPNEndpoint`: body of the returned closure, as a
function of the result of `conn.DescribeClientVpnEndpoints` — `result`
models the response pointer, whose `ClientVpnEndpoints` slice holds
endpoint pointers. -/
def statusClientVPNEndpoint
    (result : Option (List (Option ClientVPNEndpoint)))
    (err : Option GoError) : Outcome ClientVPNEndpoint :=
  if errCodeEquals err errCodeClientVPNEndpointIdNotFound then
    ⟨none, clientVPNEndpointStatusNotFound, none⟩
  else if err.isSome then
    ⟨none, clientVPNEndpointStatusUnknown, err⟩
  else
    match result with
    | none => ⟨none, clientVPNEndpointStatusNotFound, none⟩
    | some [] => ⟨none, clientVPNEndpointStatusNotFound, none⟩
    | some (none :: _) => ⟨none, clientVPNEndpointStatusNotFound, none⟩
    | some (some endpoint :: _) =>
      match endpoint.status with
      | none => ⟨some endpoint, clientVPNEndpointStatusUnknown, none⟩
      | some st =>
        match st.code with
        | none => ⟨some endpoint, clientVPNEndpointStatusUnknown, none⟩
        | some code => ⟨some endpoint, code, none⟩

/-- `RouteTableStatusReady` constant of `status.go`. -/
def routeTableStatusReady : String := "ready"

/-- An `*ec2.RouteTable`; the reducer does not inspect its fields. -/
structure RouteTable where
  id : String
deriving DecidableEq, Repr

/-- `StatusRouteTable`: body of the returned closure, as a function of
the result of `tfec2.FindRouteTableByID`.  On a `tfresource.NotFound`
error class it returns the empty status string with nil payload and nil
error; this empty string is this reducer's representation of the
`NotFound` status. -/
def statusRouteTable
    (output : Option RouteTable) (err : Option GoError) :
    Outcome RouteTable :=
  if isNotFoundErr err then
    ⟨none, "", none⟩
  else if err.isSome then
    ⟨none, "", err⟩
  else
    ⟨output, routeTableStatusReady, none⟩

/-- `tfec2.ErrCodeInvalidSubnetIDNotFound`. -/
def errCodeInvalidSubnetIDNotFound : String := "InvalidSubnetID.NotFound"

/-- An `*ec2.Subnet`: only `MapCustomerOwnedIpOnLaunch` is read. -/
structure Subnet where
  mapCustomerOwnedIpOnLaunch : Option Bool
deriving DecidableEq, Repr

/-- `StatusSubnetMapCustomerOwnedIPOnLaunch`: body of the returned
closure, as a function of the result of `tfec2.FindSubnetByID`.  The
string `"false"` is this reducer's representation of both the `NotFound`
and the `Unknown` status. -/
def statusSubnetMapCustomerOwnedIPOnLaunch
    (subnet : Option Subnet) (err : Option GoError) : Outcome Subnet :=
  if errCodeEquals err errCodeInvalidSubnetIDNotFound then
    ⟨none, "false", none⟩
  else if err.isSome then
    ⟨none, "false", err⟩
  else
    match subnet with
    | none => ⟨none, "false", none⟩
    | some s =>
      ⟨some s, formatBool (boolValue s.mapCustomerOwnedIpOnLaunch), none⟩

/-- `tfec2.ErrCodeInvalidVPCPeeringConnectionIDNotFound`. -/
def errCodeInvalidVPCPeeringConnectionIDNotFound : String :=
  "InvalidVpcPeeringConnectionID.NotFound"

/-- `vpcPeeringConnectionStatusNotFound` constant of `status.go`. -/
def vpcPeeringConnectionStatusNotFound : String := "NotFound"

/-- `vpcPeeringConnectionStatusUnknown` constant of `status.go`. -/
def vpcPeeringConnectionStatusUnknown : String := "Unknown"

/-- AWS SDK constant `ec2.VpcPeeringConnectionStateReasonCodeFailed`. -/
def vpcPeeringConnectionStateReasonCodeFailed : String := "failed"

/-- AWS SDK constant `ec2.VpcPeeringConnectionStateReasonCodeDeleted`. -/
def vpcPeeringConnectionStateReasonCodeDeleted : String := "deleted"

/-- AWS SDK constant `ec2.VpcPeeringConnectionStateReasonCodeExpired`. -/
def vpcPeeringConnectionStateReasonCodeExpired : String := "expired"

/-- AWS SDK constant `ec2.VpcPeeringConnectionStateReasonCodeRejected`. -/
def vpcPeeringConnectionStateReasonCodeRejected : String := "rejected"

/-- An `*ec2.VpcPeeringConnectionStateReason`: `Code` and `Message`. -/
structure VPCPeeringConnectionStateReason where
  code : Option String
  message : Option String
deriving DecidableEq, Repr

/-- An `*ec2.VpcPeeringConnection`: only the `Status` field is read. -/
structure VPCPeeringConnection where
  status : Option VPCPeeringConnectionStateReason
deriving DecidableEq, Repr

/-- `StatusVPCPeeringConnection`: body of the returned closure, as a
function of the result of `tfec2.FindVPCPeeringConnectionByID`.  The
`switch` on the status code sends `failed` (via `fallthrough`),
`deleted`, `expired` and `rejected` to the `NotFound` outcome. -/
def statusVPCPeeringConnection
    (vpcPeeringConnection : Option VPCPeeringConnection)
    (err : Option GoError) : Outcome VPCPeeringConnection :=
  if errCodeEquals err errCodeInvalidVPCPeeringConnectionIDNotFound then
    ⟨none, vpcPeeringConnectionStatusNotFound, none⟩
  else if err.isSome then
    ⟨none, vpcPeeringConnectionStatusUnknown, err⟩
  else
    match vpcPeeringConnection with
    | none => ⟨none, vpcPeeringConnectionStatusNotFound, none⟩
    | some pc =>
      match pc.status with
      | none => ⟨none, vpcPeeringConnectionStatusNotFound, none⟩
      | some st =>
        let statusCode := stringValue st.code
        if statusCode == vpcPeeringConnectionStateReasonCodeFailed
            || statusCode == vpcPeeringConnectionStateReasonCodeDeleted
            || statusCode == vpcPeeringConnectionStateReasonCodeExpired
            || statusCode == vpcPeeringConnectionStateReasonCodeRejected then
          ⟨none, vpcPeeringConnectionStatusNotFound, none⟩
        else
          ⟨some pc, statusCode, none⟩

/-- `snapshotImportNotFound` constant of `status.go`. -/
def snapshotImportNotFound : String := "NotFound"

/-- `tfec2.EBSSnapshotImportStateDeleting`. -/
def ebsSnapshotImportStateDeleting : String := "deleting"

/-- An `*ec2.SnapshotTaskDetail`: only the `Status` field is read. -/
structure SnapshotTaskDetail where
  status : Option String
deriving DecidableEq, Repr

/-- An `*ec2.ImportSnapshotTask`: only `SnapshotTaskDetail` is read. -/
structure ImportSnapshotTask where
  snapshotTaskDetail : Option SnapshotTaskDetail
deriving DecidableEq, Repr

/-- `StatusEBSSnapshotImport`: body of the returned closure, as a
function of the result of `conn.DescribeImportSnapshotTasks` — `resp`
models the response pointer, whose `ImportSnapshotTasks` slice holds
task pointers.  The Go body reads `task.SnapshotTaskDetail` into
`detail` and then dereferences `detail.Status` without a nil check, so
when the first task is non-nil but its `SnapshotTaskDetail` is nil the
closure dereferences a nil pointer and panics: the embedding returns
`none` for that run-time failure and `some` of the produced triple
otherwise. -/
def statusEBSSnapshotImport
    (resp : Option (List (Option ImportSnapshotTask)))
    (err : Option GoError) : Option (Outcome SnapshotTaskDetail) :=
  if err.isSome then
    some ⟨none, "", err⟩
  else
    match resp with
    | none => some ⟨none, snapshotImportNotFound, none⟩
    | some [] => some ⟨none, snapshotImportNotFound, none⟩
    | some (none :: _) => some ⟨none, snapshotImportNotFound, none⟩
    | some (some task :: _) =>
      match task.snapshotTaskDetail with
      | none => none
      | some detail =>
        let errOut :=
          if detail.status.isSome
              && stringValue detail.status == ebsSnapshotImportStateDeleting then
            some (GoError.plainErr "Snapshot import task is deleting")
          else
            none
        some ⟨some detail, stringValue detail.status, errOut⟩

/-! ### Sweep orchestrator (`internal/sweep/sweep.go`)

The per-item body passed to `tfresource.RetryConfigContext` calls
`DeleteResource` and classifies its error; the classification code is in
the source tree.  `tfresource.RetryConfigContext` and
`tfresource.TimedOut` themselves live in the repository package
`internal/tfresource`, which is not under the source tree, so they are
modelled from §4.2 of the specification. -/

/-- A `*resource.RetryError` as produced by `resource.RetryableError`
and `resource.NonRetryableError`. -/
inductive RetryError where
  | retryable (e : GoError)
  | nonRetryable (e : GoError)
deriving DecidableEq, Repr

/-- The terminal states of the retry driver, per §4.2 of the
specification: `Target` (the callback succeeded), `Failure` (a
non-retryable error terminated the loop), `TimedOut` (the overall
timeout elapsed while still pending). -/
inductive RetryOutcome where
  | target
  | failure (e : GoError)
  | timedOut
deriving DecidableEq, Repr

/-- The retry classification performed by the closure that
`SweepOrchestratorContext` passes to the retry driver: a nil delete
error means done; an error whose display string contains `"Throttling"`
is wrapped `resource.RetryableError`; every other error is wrapped
`resource.NonRetryableError`. -/
def sweepRetryClassify (deleteResult : Option GoError) : Option RetryError :=
  match deleteResult with
  | none => none
  | some e =>
    if strContains e.errorText "Throttling" then
      some (.retryable e)
    else
      some (.nonRetryable e)

/-- Modelled from the spec: `tfresource.RetryConfigContext`
(repository package `internal/tfresource`, not under the source tree).
Per §4.2, the driver repeatedly invokes the callback: success ends the
loop in `Target`; a non-retryable error ends it immediately in
`Failure`; a retryable error keeps the loop pending for another poll;
when the overall timeout (modelled as `fuel`, the number of polls the
timeout admits) elapses while still pending the driver ends in
`TimedOut`.  The callback receives the zero-based attempt index; the
returned `Nat` counts the invocations performed. -/
def retryDriver (f : Nat → Option RetryError) :
    Nat → Nat → RetryOutcome × Nat
  | 0, calls => (.timedOut, calls)
  | fuel + 1, calls =>
    match f calls with
    | none => (.target, calls + 1)
    | some (.nonRetryable e) => (.failure e, calls + 1)
    | some (.retryable _) => retryDriver f fuel (calls + 1)

/-- One item of `SweepOrchestratorContext`: the goroutine body for a
single sweep resource.  `deleteFn i` is the error result of the `i`-th
call of `DeleteResource` on this resource (counting from 0).  The retry
phase runs the driver over the classifying closure; then, exactly when
the driver ended in `TimedOut` (the condition `tfresource.TimedOut(err)`
of the source, with the driver and `TimedOut` modelled from §4.2), one
additional non-retried `DeleteResource` call is made and its result
replaces the error.  Returns the item's final error and the total number
of `DeleteResource` calls made for the item. -/
def sweepItem (fuel : Nat) (deleteFn : Nat → Option GoError) :
    Option GoError × Nat :=
  let r := retryDriver (fun i => sweepRetryClassify (deleteFn i)) fuel 0
  match r.1 with
  | .target => (none, r.2)
  | .failure e => (some e, r.2)
  | .timedOut => (deleteFn r.2, r.2 + 1)

/-- `SweepOrchestratorContext` over a list of sweep resources: every
item is submitted to its own goroutine via `multierror.Group.Go`
unconditionally, and `g.Wait()` collects every non-nil per-item error
into the aggregate, in order.  The aggregate error list, one entry per
failed item. -/
def sweepOrchestratorErrors (fuel : Nat)
    (items : List (Nat → Option GoError)) : List GoError :=
  (items.map (fun d => (sweepItem fuel d).1)).filterMap id

/-- `(*multierror.Group).Wait().ErrorOrNil()`: nil when no item failed,
otherwise the aggregate of all per-item errors. -/
def sweepOrchestrator (fuel : Nat)
    (items : List (Nat → Option GoError)) : Option (List GoError) :=
  match sweepOrchestratorErrors fuel items with
  | [] => none
  | es => some es

/-- The skip table of `SkipSweepError`: the `(error code, message
substring)` pairs of its `if` chain, in declared order.  Every entry's
decision is "skip" (`true`). -/
def skipTable : List (String × String) :=
  [("RequestError", "send request failed"),
   ("UnsupportedOperation", ""),
   ("InvalidParameterValue", "not permitted in this API version for your account"),
   ("InvalidParameterValue", "Access Denied to API Version"),
   ("AccessDeniedException", ""),
   ("BadRequestException", "not supported"),
   ("InvalidAction", "is not valid"),
   ("InvalidAction", "Unavailable Operation"),
   ("InvalidKeySigningKeyStatus", "cannot be deleted because"),
   ("KeySigningKeyInParentDSRecord", "Due to DNS lookup failure"),
   ("UnsupportedCommandException", "command is only supported in")]

/-- `SkipSweepError`, transcribed as the source's chain of
`tfawserr.ErrMessageContains` tests, each returning `true`, with a final
`return false`. -/
def skipSweepError (err : Option GoError) : Bool :=
  if errMessageContains err "RequestError" "send request failed" then true
  else if errMessageContains err "UnsupportedOperation" "" then true
  else if errMessageContains err "InvalidParameterValue"
      "not permitted in this API version for your account" then true
  else if errMessageContains err "InvalidParameterValue"
      "Access Denied to API Version" then true
  else if errMessageContains err "AccessDeniedException" "" then true
  else if errMessageContains err "BadRequestException" "not supported" then true
  else if errMessageContains err "InvalidAction" "is not valid" then true
  else if errMessageContains err "InvalidAction" "Unavailable Operation" then true
  else if errMessageContains err "InvalidKeySigningKeyStatus"
      "cannot be deleted because" then true
  else if errMessageContains err "KeySigningKeyInParentDSRecord"
      "Due to DNS lookup failure" then true
  else if errMessageContains err "UnsupportedCommandException"
      "command is only supported in" then true
  else false

/-- First-match evaluation of a skip table: scan the entries in
declared order and let the first entry whose `(code, substring)` pair
matches the error determine the decision (every entry of
`SkipSweepError`'s table decides `true`); no match yields `false`. -/
def tableDecision (table : List (String × String)) (err : Option GoError) :
    Bool :=
  match table with
  | [] => false
  | e :: rest =>
    if errMessageContains err e.1 e.2 then true else tableDecision rest err

/-! ### Shared regional sweep client (`SharedRegionalSweepClient`)

The cache `SweeperClients` is a bare Go map from region to client with
no synchronization.  A call first reads the map at the region key and
returns the hit if present; on a miss it constructs a client (env-var
checks and `conf.Client()`, modelled as an abstract constructor that
may fail) and then writes it into the map.  Clients are modelled as
`Nat` tokens so runs are computable. -/

/-- The `SweeperClients` map: an association list from region to
client token, last write first. -/
abbrev SweepCache := List (String × Nat)

/-- Go map read `SweeperClients[region]`. -/
def cacheLookup (cache : SweepCache) (region : String) : Option Nat :=
  match cache.find? (fun e => e.1 == region) with
  | some e => some e.2
  | none => none

/-- Go map write `SweeperClients[region] = client`. -/
def cacheStore (cache : SweepCache) (region : String) (client : Nat) :
    SweepCache :=
  (region, client) :: (cache.filter (fun e => !(e.1 == region)))

/-- `SharedRegionalSweepClient` as a sequential state transformer: from
the current cache and the abstract constructor (covering the env-var
checks and `conf.Client()`), produce the returned client or error, the
new cache, and the number of client constructions performed by this
call. -/
def sharedRegionalSweepClient (construct : String → Except GoError Nat)
    (cache : SweepCache) (region : String) :
    Except GoError Nat × SweepCache × Nat :=
  match cacheLookup cache region with
  | some client => (.ok client, cache, 0)
  | none =>
    match construct region with
    | .error e => (.error e, cache, 0)
    | .ok client => (.ok client, cacheStore cache region client, 1)

/-- One concurrent caller of `SharedRegionalSweepClient` in the
interleaving model: it has read the map (recording what it saw), or it
is past its construct-and-store step, or it has not started. -/
inductive SweepWorkerPhase where
  | notStarted
  | checked (sawHit : Option Nat)
  | done (result : Option Nat)
deriving DecidableEq, Repr

/-- Global state of two sweep workers racing to obtain the client of
the same region: the shared unsynchronized map, each worker's phase,
and the total number of client constructions performed. -/
structure SweepRaceState where
  cache : SweepCache
  phaseA : SweepWorkerPhase
  phaseB : SweepWorkerPhase
  constructions : Nat
deriving DecidableEq, Repr

/-- Advance one worker of the race by one atomic step, for the fixed
region `region` and an always-succeeding constructor returning the
token `client`.  The map read (`SweeperClients[region]`) and the
construct-then-store (`conf.Client()` followed by
`SweeperClients[region] = client`) are the two steps of a call; the code
takes no lock between them. -/
def sweepWorkerStep (region : String) (client : Nat)
    (cache : SweepCache) : SweepWorkerPhase → SweepWorkerPhase × SweepCache × Nat
  | .notStarted => (.checked (cacheLookup cache region), cache, 0)
  | .checked (some hit) => (.done (some hit), cache, 0)
  | .checked none =>
    (.done (some client), cacheStore cache region client, 1)
  | .done r => (.done r, cache, 0)

/-- Run a schedule (a list of worker choices, `false` = worker A,
`true` = worker B) from a race state. -/
def sweepRaceRun (region : String) (clientA clientB : Nat) :
    List Bool → SweepRaceState → SweepRaceState
  | [], s => s
  | who :: rest, s =>
    let next :=
      if who then
        let r := sweepWorkerStep region clientB s.cache s.phaseB
        { s with phaseB := r.1, cache := r.2.1,
                 constructions := s.constructions + r.2.2 }
      else
        let r := sweepWorkerStep region clientA s.cache s.phaseA
        { s with phaseA := r.1, cache := r.2.1,
                 constructions := s.constructions + r.2.2 }
    sweepRaceRun region clientA clientB rest next

/-- The initial race state: empty cache, both workers not started. -/
def sweepRaceInit : SweepRaceState :=
  ⟨[], .notStarted, .notStarted, 0⟩

/-! ## Helper lemmas -/

/-- First-match table evaluation returns `true` exactly when some entry
of the table matches the error. -/
theorem tableDecision_eq_true_iff (table : List (String × String))
    (err : Option GoError) :
    tableDecision table err = true ↔
      ∃ e ∈ table, errMessageContains err e.1 e.2 = true := by
  induction table with
  | nil => simp [tableDecision]
  | cons e rest ih =>
    by_cases h : errMessageContains err e.1 e.2
    · simp [tableDecision, h]
    · simp [tableDecision, h, ih]

/-- The retry driver never decreases its invocation counter. -/
theorem retryDriver_calls_le (f : Nat → Option RetryError) :
    ∀ (fuel calls : Nat), calls ≤ (retryDriver f fuel calls).2 := by
  intro fuel
  induction fuel with
  | zero => intro calls; simp [retryDriver]
  | succ n ih =>
    intro calls
    simp only [retryDriver]
    cases h : f calls with
    | none => simp
    | some re =>
      cases re with
      | nonRetryable e => simp
      | retryable e => exact le_trans (Nat.le_succ calls) (ih (calls + 1))

/-- With at least one unit of fuel the retry driver invokes its
callback at least once more than the starting count. -/
theorem retryDriver_calls_pos (f : Nat → Option RetryError)
    (fuel calls : Nat) :
    calls + 1 ≤ (retryDriver f (fuel + 1) calls).2 := by
  simp only [retryDriver]
  cases h : f calls with
  | none => simp
  | some re =>
    cases re with
    | nonRetryable e => simp
    | retryable e => exact retryDriver_calls_le f fuel (calls + 1)

/-- The orchestrator's aggregate is nil exactly when its error list is
empty. -/
theorem sweepOrchestrator_eq_none_iff (fuel : Nat)
    (items : List (Nat → Option GoError)) :
    sweepOrchestrator fuel items = none ↔
      sweepOrchestratorErrors fuel items = [] := by
  unfold sweepOrchestrator
  cases h : sweepOrchestratorErrors fuel items <;> simp

/-- A store to the sweep-client cache is visible to a subsequent lookup
of the same region. -/
theorem cacheLookup_cacheStore (cache : SweepCache) (region : String)
    (client : Nat) :
    cacheLookup (cacheStore cache region client) region = some client := by
  simp [cacheLookup, cacheStore, List.find?]

/-! ## Claims -/

/-- C1: for every status reducer, if the describe call fails with the
API's not-found/does-not-exist error class for that resource type, the
reducer returns `(nil, NotFound, nil)` — in particular the returned
error is nil.  Each reducer's `NotFound` status representation is its
own sentinel: `"NotFound"` for the carrier gateway, Client VPN endpoint
and VPC peering connection reducers, the empty string for
`StatusRouteTable`, and `"false"` for
`StatusSubnetMapCustomerOwnedIPOnLaunch`. -/
theorem claim_C1_notFound_error_yields_notFound_nil :
    (∀ (gw : Option CarrierGateway) (err : Option GoError),
        errCodeEquals err errCodeInvalidCarrierGatewayIDNotFound = true →
        statusCarrierGatewayState gw err =
          ⟨none, carrierGatewayStateNotFound, none⟩) ∧
    (∀ (result : Option (List (Option ClientVPNEndpoint)))
        (err : Option GoError),
        errCodeEquals err errCodeClientVPNEndpointIdNotFound = true →
        statusClientVPNEndpoint result err =
          ⟨none, clientVPNEndpointStatusNotFound, none⟩) ∧
    (∀ (rt : Option RouteTable) (err : Option GoError),
        isNotFoundErr err = true →
        statusRouteTable rt err = ⟨none, "", none⟩) ∧
    (∀ (subnet : Option Subnet) (err : Option GoError),
        errCodeEquals err errCodeInvalidSubnetIDNotFound = true →
        statusSubnetMapCustomerOwnedIPOnLaunch subnet err =
          ⟨none, "false", none⟩) ∧
    (∀ (pc : Option VPCPeeringConnection) (err : Option GoError),
        errCodeEquals err errCodeInvalidVPCPeeringConnectionIDNotFound
          = true →
        statusVPCPeeringConnection pc err =
          ⟨none, vpcPeeringConnectionStatusNotFound, none⟩) := by
  refine ⟨?_, ?_, ?_, ?_, ?_⟩ <;> intro v err h
  · simp [statusCarrierGatewayState, h]
  · simp [statusClientVPNEndpoint, h]
  · simp [statusRouteTable, h]
  · simp [statusSubnetMapCustomerOwnedIPOnLaunch, h]
  · simp [statusVPCPeeringConnection, h]

/-- Witness for C1: each reducer evaluated at a concrete not-found
class error. -/
theorem claim_C1_witness :
    statusCarrierGatewayState none
        (some (.awsErr "InvalidCarrierGatewayID.NotFound" "no such gateway"))
      = ⟨none, carrierGatewayStateNotFound, none⟩ ∧
    statusClientVPNEndpoint none
        (some (.awsErr "InvalidClientVpnEndpointId.NotFound" "gone"))
      = ⟨none, clientVPNEndpointStatusNotFound, none⟩ ∧
    statusRouteTable none (some (.notFoundErr "empty result"))
      = ⟨none, "", none⟩ ∧
    statusSubnetMapCustomerOwnedIPOnLaunch none
        (some (.awsErr "InvalidSubnetID.NotFound" "gone"))
      = ⟨none, "false", none⟩ ∧
    statusVPCPeeringConnection none
        (some (.awsErr "InvalidVpcPeeringConnectionID.NotFound" "gone"))
      = ⟨none, vpcPeeringConnectionStatusNotFound, none⟩ :=
  ⟨claim_C1_notFound_error_yields_notFound_nil.1 none _ (by decide),
   claim_C1_notFound_error_yields_notFound_nil.2.1 none _ (by decide),
   claim_C1_notFound_error_yields_notFound_nil.2.2.1 none _ (by decide),
   claim_C1_notFound_error_yields_notFound_nil.2.2.2.1 none _ (by decide),
   claim_C1_notFound_error_yields_notFound_nil.2.2.2.2 none _ (by decide)⟩

/-- C2: for every status reducer, when the describe call fails for a
reason other than the resource's not-found error class, the reducer
returns `(nil, Unknown, err)` with the non-nil underlying error.  Each
reducer's `Unknown` representation is its own sentinel: `"Unknown"`,
or the empty string for `StatusRouteTable` and `StatusEBSSnapshotImport`,
or `"false"` for `StatusSubnetMapCustomerOwnedIPOnLaunch`. -/
theorem claim_C2_other_error_yields_unknown_with_error :
    (∀ (gw : Option CarrierGateway) (e : GoError),
        errCodeEquals (some e) errCodeInvalidCarrierGatewayIDNotFound
          = false →
        statusCarrierGatewayState gw (some e) =
          ⟨none, carrierGatewayStateUnknown, some e⟩) ∧
    (∀ (result : Option (List (Option ClientVPNEndpoint))) (e : GoError),
        errCodeEquals (some e) errCodeClientVPNEndpointIdNotFound = false →
        statusClientVPNEndpoint result (some e) =
          ⟨none, clientVPNEndpointStatusUnknown, some e⟩) ∧
    (∀ (rt : Option RouteTable) (e : GoError),
        isNotFoundErr (some e) = false →
        statusRouteTable rt (some e) = ⟨none, "", some e⟩) ∧
    (∀ (subnet : Option Subnet) (e : GoError),
        errCodeEquals (some e) errCodeInvalidSubnetIDNotFound = false →
        statusSubnetMapCustomerOwnedIPOnLaunch subnet (some e) =
          ⟨none, "false", some e⟩) ∧
    (∀ (pc : Option VPCPeeringConnection) (e : GoError),
        errCodeEquals (some e) errCodeInvalidVPCPeeringConnectionIDNotFound
          = false →
        statusVPCPeeringConnection pc (some e) =
          ⟨none, vpcPeeringConnectionStatusUnknown, some e⟩) ∧
    (∀ (resp : Option (List (Option ImportSnapshotTask))) (e : GoError),
        statusEBSSnapshotImport resp (some e) = some ⟨none, "", some e⟩) := by
  refine ⟨?_, ?_, ?_, ?_, ?_, ?_⟩
  · intro v e h; simp [statusCarrierGatewayState, h]
  · intro v e h; simp [statusClientVPNEndpoint, h]
  · intro v e h; simp [statusRouteTable, h]
  · intro v e h; simp [statusSubnetMapCustomerOwnedIPOnLaunch, h]
  · intro v e h; simp [statusVPCPeeringConnection, h]
  · intro v e; simp [statusEBSSnapshotImport]

/-- Witness for C2: each reducer evaluated at a concrete error outside
the not-found class. -/
theorem claim_C2_witness :
    statusCarrierGatewayState none (some (.plainErr "boom"))
      = ⟨none, carrierGatewayStateUnknown, some (.plainErr "boom")⟩ ∧
    statusClientVPNEndpoint none (some (.awsErr "AuthFailure" "denied"))
      = ⟨none, clientVPNEndpointStatusUnknown,
          some (.awsErr "AuthFailure" "denied")⟩ ∧
    statusRouteTable none (some (.plainErr "boom"))
      = ⟨none, "", some (.plainErr "boom")⟩ ∧
    statusSubnetMapCustomerOwnedIPOnLaunch none (some (.plainErr "boom"))
      = ⟨none, "false", some (.plainErr "boom")⟩ ∧
    statusVPCPeeringConnection none (some (.plainErr "boom"))
      = ⟨none, vpcPeeringConnectionStatusUnknown, some (.plainErr "boom")⟩ ∧
    statusEBSSnapshotImport none (some (.plainErr "boom"))
      = some ⟨none, "", some (.plainErr "boom")⟩ :=
  ⟨claim_C2_other_error_yields_unknown_with_error.1 none _ (by decide),
   claim_C2_other_error_yields_unknown_with_error.2.1 none _ (by decide),
   claim_C2_other_error_yields_unknown_with_error.2.2.1 none _ (by decide),
   claim_C2_other_error_yields_unknown_with_error.2.2.2.1 none _ (by decide),
   claim_C2_other_error_yields_unknown_with_error.2.2.2.2.1 none _
     (by decide),
   claim_C2_other_error_yields_unknown_with_error.2.2.2.2.2 none _⟩

/-- C3: `StatusVPCPeeringConnection` normalizes a successful describe
whose status code is the provider-defined terminal `deleted`, `expired`
or `rejected` lifecycle code to `(nil, NotFound, nil)`. -/
theorem claim_C3_peering_terminal_codes_normalize_to_notFound :
    ∀ (pc : VPCPeeringConnection) (st : VPCPeeringConnectionStateReason),
      pc.status = some st →
      (stringValue st.code = vpcPeeringConnectionStateReasonCodeDeleted ∨
       stringValue st.code = vpcPeeringConnectionStateReasonCodeExpired ∨
       stringValue st.code = vpcPeeringConnectionStateReasonCodeRejected) →
      statusVPCPeeringConnection (some pc) none =
        ⟨none, vpcPeeringConnectionStatusNotFound, none⟩ := by
  intro pc st hst hcode
  rcases hcode with h | h | h <;>
    simp [statusVPCPeeringConnection, errCodeEquals, hst, h,
      vpcPeeringConnectionStateReasonCodeDeleted,
      vpcPeeringConnectionStateReasonCodeExpired,
      vpcPeeringConnectionStateReasonCodeRejected]

/-- Witness for C3: a peering connection in each of the three terminal
lifecycle codes. -/
theorem claim_C3_witness :
    statusVPCPeeringConnection (some ⟨some ⟨some "deleted", none⟩⟩) none
      = ⟨none, vpcPeeringConnectionStatusNotFound, none⟩ ∧
    statusVPCPeeringConnection (some ⟨some ⟨some "expired", none⟩⟩) none
      = ⟨none, vpcPeeringConnectionStatusNotFound, none⟩ ∧
    statusVPCPeeringConnection
        (some ⟨some ⟨some "rejected", some "overdue"⟩⟩) none
      = ⟨none, vpcPeeringConnectionStatusNotFound, none⟩ :=
  ⟨claim_C3_peering_terminal_codes_normalize_to_notFound _ _ rfl
     (Or.inl (by decide)),
   claim_C3_peering_terminal_codes_normalize_to_notFound _ _ rfl
     (Or.inr (Or.inl (by decide))),
   claim_C3_peering_terminal_codes_normalize_to_notFound _ _ rfl
     (Or.inr (Or.inr (by decide)))⟩

/-- C4 counterexample: the claim "a NotFound status never carries a
non-nil payload" fails as stated over every input, because the reducers
return provider lifecycle codes verbatim: a describe response whose
endpoint carries the literal status code `"NotFound"` makes
`StatusClientVPNEndpoint` return that code as the status together with
the non-nil endpoint payload. -/
theorem claim_C4_counterexample :
    (statusClientVPNEndpoint
        (some [some ⟨some ⟨some clientVPNEndpointStatusNotFound⟩⟩])
        none).status = clientVPNEndpointStatusNotFound ∧
    (statusClientVPNEndpoint
        (some [some ⟨some ⟨some clientVPNEndpointStatusNotFound⟩⟩])
        none).payload ≠ none := by
  decide

/-- C4 amended: for every status reducer, an outcome whose status is
the reducer's NotFound value carries a nil payload, provided the
describe payload does not itself reduce to that NotFound string (the
carrier gateway, Client VPN endpoint, VPC peering connection and EBS
snapshot import reducers pass provider lifecycle codes through
verbatim, and the subnet reducer renders the payload's boolean as its
status, so a payload reducing to the sentinel string is returned
non-nil). -/
theorem claim_C4_amended_notFound_nil_payload :
    (∀ (gw : Option CarrierGateway) (err : Option GoError),
        (∀ g, gw = some g →
          stringValue g.state ≠ carrierGatewayStateNotFound) →
        (statusCarrierGatewayState gw err).status
          = carrierGatewayStateNotFound →
        (statusCarrierGatewayState gw err).payload = none) ∧
    (∀ (result : Option (List (Option ClientVPNEndpoint)))
        (err : Option GoError),
        (∀ ep rest, result = some (some ep :: rest) →
          ∀ st, ep.status = some st →
            st.code ≠ some clientVPNEndpointStatusNotFound) →
        (statusClientVPNEndpoint result err).status
          = clientVPNEndpointStatusNotFound →
        (statusClientVPNEndpoint result err).payload = none) ∧
    (∀ (rt : Option RouteTable) (err : Option GoError),
        (statusRouteTable rt err).status = "" →
        (statusRouteTable rt err).payload = none) ∧
    (∀ (subnet : Option Subnet) (err : Option GoError),
        (∀ s, subnet = some s →
          boolValue s.mapCustomerOwnedIpOnLaunch = true) →
        (statusSubnetMapCustomerOwnedIPOnLaunch subnet err).status
          = "false" →
        (statusSubnetMapCustomerOwnedIPOnLaunch subnet err).payload
          = none) ∧
    (∀ (pc : Option VPCPeeringConnection) (err : Option GoError),
        (∀ p st, pc = some p → p.status = some st →
          stringValue st.code ≠ vpcPeeringConnectionStatusNotFound) →
        (statusVPCPeeringConnection pc err).status
          = vpcPeeringConnectionStatusNotFound →
        (statusVPCPeeringConnection pc err).payload = none) ∧
    (∀ (resp : Option (List (Option ImportSnapshotTask)))
        (err : Option GoError) (out : Outcome SnapshotTaskDetail),
        (∀ task rest detail, resp = some (some task :: rest) →
          task.snapshotTaskDetail = some detail →
          stringValue detail.status ≠ snapshotImportNotFound) →
        statusEBSSnapshotImport resp err = some out →
        out.status = snapshotImportNotFound →
        out.payload = none) := by
  refine ⟨?_, ?_, ?_, ?_, ?_, ?_⟩
  · intro gw err hg hstat
    by_cases h1 : errCodeEquals err errCodeInvalidCarrierGatewayIDNotFound
    · simp [statusCarrierGatewayState, h1]
    · by_cases h2 : err.isSome
      · simp [statusCarrierGatewayState, h1, h2,
          carrierGatewayStateUnknown, carrierGatewayStateNotFound] at hstat
      · rcases gw with _ | g
        · simp [statusCarrierGatewayState, h1, h2]
        · by_cases h3 : stringValue g.state == carrierGatewayStateDeleted
          · simp [statusCarrierGatewayState, h1, h2, h3]
          · simp only [statusCarrierGatewayState, h1, h2, h3,
              if_false, if_true, Bool.false_eq_true, if_neg, reduceIte] at hstat
            exact absurd hstat (hg g rfl)
  · intro result err hg hstat
    by_cases h1 : errCodeEquals err errCodeClientVPNEndpointIdNotFound
    · simp [statusClientVPNEndpoint, h1]
    · by_cases h2 : err.isSome
      · simp [statusClientVPNEndpoint, h1, h2,
          clientVPNEndpointStatusUnknown, clientVPNEndpointStatusNotFound]
          at hstat
      · rcases result with _ | (_ | ⟨_ | ep, rest⟩)
        · simp [statusClientVPNEndpoint, h1, h2]
        · simp [statusClientVPNEndpoint, h1, h2]
        · simp [statusClientVPNEndpoint, h1, h2]
        · rcases hs : ep.status with _ | st
          · simp [statusClientVPNEndpoint, h1, h2, hs,
              clientVPNEndpointStatusUnknown,
              clientVPNEndpointStatusNotFound] at hstat
          · rcases hc : st.code with _ | c
            · simp [statusClientVPNEndpoint, h1, h2, hs, hc,
                clientVPNEndpointStatusUnknown,
                clientVPNEndpointStatusNotFound] at hstat
            · have hcode := hg ep rest rfl st hs
              have : c = clientVPNEndpointStatusNotFound := by
                simpa [statusClientVPNEndpoint, h1, h2, hs, hc] using hstat
              exact absurd (hc.trans (by rw [this])) hcode
  · intro rt err hstat
    by_cases h1 : isNotFoundErr err
    · simp [statusRouteTable, h1]
    · by_cases h2 : err.isSome
      · simp [statusRouteTable, h1, h2]
      · simp [statusRouteTable, h1, h2, routeTableStatusReady] at hstat
  · intro subnet err hg hstat
    by_cases h1 : errCodeEquals err errCodeInvalidSubnetIDNotFound
    · simp [statusSubnetMapCustomerOwnedIPOnLaunch, h1]
    · by_cases h2 : err.isSome
      · simp [statusSubnetMapCustomerOwnedIPOnLaunch, h1, h2]
      · rcases subnet with _ | s
        · simp [statusSubnetMapCustomerOwnedIPOnLaunch, h1, h2]
        · have hb := hg s rfl
          simp [statusSubnetMapCustomerOwnedIPOnLaunch, h1, h2, hb,
            formatBool] at hstat
  · intro pc err hg hstat
    by_cases h1 :
        errCodeEquals err errCodeInvalidVPCPeeringConnectionIDNotFound
    · simp [statusVPCPeeringConnection, h1]
    · by_cases h2 : err.isSome
      · simp [statusVPCPeeringConnection, h1, h2,
          vpcPeeringConnectionStatusUnknown,
          vpcPeeringConnectionStatusNotFound] at hstat
      · rcases pc with _ | p
        · simp [statusVPCPeeringConnection, h1, h2]
        · rcases hs : p.status with _ | st
          · simp [statusVPCPeeringConnection, h1, h2, hs]
          · by_cases h3 :
                stringValue st.code
                    == vpcPeeringConnectionStateReasonCodeFailed
                  || stringValue st.code
                    == vpcPeeringConnectionStateReasonCodeDeleted
                  || stringValue st.code
                    == vpcPeeringConnectionStateReasonCodeExpired
                  || stringValue st.code
                    == vpcPeeringConnectionStateReasonCodeRejected
            · simp [statusVPCPeeringConnection, h1, h2, hs, h3]
            · simp only [statusVPCPeeringConnection, h1, h2, hs, h3,
                Bool.false_eq_true, if_false, reduceIte] at hstat
              exact absurd hstat (hg p st rfl hs)
  · intro resp err out hg hrun hstat
    by_cases h1 : err.isSome
    · have hout : out = ⟨none, "", err⟩ := by
        simpa [statusEBSSnapshotImport, h1, eq_comm] using hrun
      rw [hout] at hstat
      simp [snapshotImportNotFound] at hstat
    · rcases resp with _ | (_ | ⟨_ | task, rest⟩)
      · have hout : out = ⟨none, snapshotImportNotFound, none⟩ := by
          simpa [statusEBSSnapshotImport, h1, eq_comm] using hrun
        rw [hout]
      · have hout : out = ⟨none, snapshotImportNotFound, none⟩ := by
          simpa [statusEBSSnapshotImport, h1, eq_comm] using hrun
        rw [hout]
      · have hout : out = ⟨none, snapshotImportNotFound, none⟩ := by
          simpa [statusEBSSnapshotImport, h1, eq_comm] using hrun
        rw [hout]
      · rcases hd : task.snapshotTaskDetail with _ | detail
        · exact absurd hrun (by simp [statusEBSSnapshotImport, h1, hd])
        · have hout : out.status = stringValue detail.status := by
            have := hrun
            simp [statusEBSSnapshotImport, h1, hd] at this
            rw [← this]
          exact absurd (hout ▸ hstat) (hg task rest detail rfl hd)

/-- Witness for the amended C4: each reducer at a concrete input whose
payload cannot reduce to the NotFound sentinel, evaluated to a nil
payload. -/
theorem claim_C4_amended_witness :
    (statusCarrierGatewayState none none).payload = none ∧
    (statusClientVPNEndpoint none none).payload = none ∧
    (statusRouteTable none (some (.notFoundErr "gone"))).payload = none ∧
    (statusSubnetMapCustomerOwnedIPOnLaunch none none).payload = none ∧
    (statusVPCPeeringConnection none none).payload = none ∧
    (⟨none, snapshotImportNotFound, none⟩
        : Outcome SnapshotTaskDetail).payload = none :=
  ⟨claim_C4_amended_notFound_nil_payload.1 none none
     (fun g h => Option.noConfusion h) (by decide),
   claim_C4_amended_notFound_nil_payload.2.1 none none
     (fun ep rest h => Option.noConfusion h) (by decide),
   claim_C4_amended_notFound_nil_payload.2.2.1 none _ (by decide),
   claim_C4_amended_notFound_nil_payload.2.2.2.1 none none
     (fun s h => Option.noConfusion h) (by decide),
   claim_C4_amended_notFound_nil_payload.2.2.2.2.1 none none
     (fun p st h => Option.noConfusion h) (by decide),
   claim_C4_amended_notFound_nil_payload.2.2.2.2.2 none none
     ⟨none, snapshotImportNotFound, none⟩
     (fun task rest detail h => Option.noConfusion h) (by decide)
     (by decide)⟩

/-- C5: in the sweep orchestrator's per-item retry loop, a delete
error whose display string contains `"Throttling"` is classified
retryable and the retry driver keeps the loop going (another poll with
fuel remaining), while every other delete error is classified
non-retryable and the driver terminates the item's loop immediately as
a `Failure` carrying that error.  The driver is modelled from §4.2 of
the specification; the classification closure is from the source. -/
theorem claim_C5_throttling_retryable_others_fatal :
    (∀ e : GoError, strContains e.errorText "Throttling" = true →
        sweepRetryClassify (some e) = some (RetryError.retryable e)) ∧
    (∀ e : GoError, strContains e.errorText "Throttling" = false →
        sweepRetryClassify (some e) = some (RetryError.nonRetryable e)) ∧
    (∀ (f : Nat → Option RetryError) (fuel calls : Nat) (e : GoError),
        f calls = some (RetryError.retryable e) →
        retryDriver f (fuel + 1) calls = retryDriver f fuel (calls + 1)) ∧
    (∀ (f : Nat → Option RetryError) (fuel calls : Nat) (e : GoError),
        f calls = some (RetryError.nonRetryable e) →
        retryDriver f (fuel + 1) calls =
          (RetryOutcome.failure e, calls + 1)) := by
  refine ⟨?_, ?_, ?_, ?_⟩
  · intro e h; simp [sweepRetryClassify, h]
  · intro e h; simp [sweepRetryClassify, h]
  · intro f fuel calls e h; simp [retryDriver, h]
  · intro f fuel calls e h; simp [retryDriver, h]

/-- Witness for C5: a concrete throttling error is retried (the loop
recurses), a concrete other error terminates the loop as a failure. -/
theorem claim_C5_witness :
    sweepRetryClassify
        (some (GoError.awsErr "ThrottlingException" "Rate exceeded"))
      = some (RetryError.retryable
          (GoError.awsErr "ThrottlingException" "Rate exceeded")) ∧
    sweepRetryClassify (some (GoError.plainErr "AccessDenied"))
      = some (RetryError.nonRetryable (GoError.plainErr "AccessDenied")) ∧
    retryDriver
        (fun _ => some (RetryError.retryable
          (GoError.awsErr "ThrottlingException" "Rate exceeded"))) 1 0
      = retryDriver
          (fun _ => some (RetryError.retryable
            (GoError.awsErr "ThrottlingException" "Rate exceeded"))) 0 1 ∧
    retryDriver
        (fun _ => some (RetryError.nonRetryable
          (GoError.plainErr "AccessDenied"))) 1 0
      = (RetryOutcome.failure (GoError.plainErr "AccessDenied"), 1) :=
  ⟨claim_C5_throttling_retryable_others_fatal.1 _ (by decide),
   claim_C5_throttling_retryable_others_fatal.2.1 _ (by decide),
   claim_C5_throttling_retryable_others_fatal.2.2.1 _ 0 0 _ rfl,
   claim_C5_throttling_retryable_others_fatal.2.2.2 _ 0 0 _ rfl⟩

/-- C6: the orchestrator attempts every item regardless of other
items' failures (each item's loop runs at least one delete attempt, and
an item's result depends only on its own delete function), and returns
the aggregate of exactly the failing items' errors — nil when none
fail.  In particular for 3 items where only item 2 fails non-retryably,
items 1 and 3 complete and the aggregate holds only item 2's error. -/
theorem claim_C6_orchestrator_aggregates_all_failures :
    (∀ (fuel : Nat) (items : List (Nat → Option GoError)),
        sweepOrchestrator fuel items = none ↔
          ∀ d ∈ items, (sweepItem fuel d).1 = none) ∧
    (∀ (fuel : Nat) (items : List (Nat → Option GoError)) (e : GoError),
        e ∈ sweepOrchestratorErrors fuel items ↔
          ∃ d ∈ items, (sweepItem fuel d).1 = some e) ∧
    (∀ (fuel : Nat) (d : Nat → Option GoError),
        1 ≤ (sweepItem fuel d).2) ∧
    (∀ (fuel : Nat) (e : GoError), 1 ≤ fuel →
        strContains e.errorText "Throttling" = false →
        sweepOrchestrator fuel
            [fun _ => none, fun _ => some e, fun _ => none]
          = some [e] ∧
        sweepItem fuel (fun _ => none) = (none, 1)) := by
  refine ⟨?_, ?_, ?_, ?_⟩
  · intro fuel items
    rw [sweepOrchestrator_eq_none_iff]
    simp [sweepOrchestratorErrors, List.filterMap_eq_nil_iff]
  · intro fuel items e
    simp [sweepOrchestratorErrors, List.mem_filterMap, List.mem_map]
  · intro fuel d
    cases fuel with
    | zero => simp [sweepItem, retryDriver]
    | succ n =>
      have hpos :=
        retryDriver_calls_pos (fun i => sweepRetryClassify (d i)) n 0
      simp only [sweepItem]
      cases hr :
          (retryDriver (fun i => sweepRetryClassify (d i)) (n + 1) 0).1 <;>
        simp [hr] <;> omega
  · intro fuel e hf ht
    obtain ⟨k, rfl⟩ : ∃ k, fuel = k + 1 := ⟨fuel - 1, by omega⟩
    constructor
    · simp [sweepOrchestrator, sweepOrchestratorErrors, sweepItem,
        retryDriver, sweepRetryClassify, ht]
    · simp [sweepItem, retryDriver, sweepRetryClassify]

/-- Witness for C6: the 3-item scenario with a concrete non-retryable
error on item 2 only. -/
theorem claim_C6_witness :
    sweepOrchestrator 1
        [fun _ => none, fun _ => some (GoError.plainErr "boom"),
         fun _ => none]
      = some [GoError.plainErr "boom"] ∧
    sweepItem 1 (fun _ => none) = (none, 1) :=
  claim_C6_orchestrator_aggregates_all_failures.2.2.2 1
    (GoError.plainErr "boom") (by decide) (by decide)

/-- C7: `SkipSweepError` is the first-match evaluation of its fixed
ordered table of `(error code, message substring)` entries: it returns
`true` exactly when the error matches at least one entry, the first
matching entry in declared order determines the decision (every entry
decides `true`), and an error matching no entry yields `false`. -/
theorem claim_C7_skip_table_first_match :
    (∀ err : Option GoError,
        skipSweepError err = tableDecision skipTable err) ∧
    (∀ err : Option GoError,
        skipSweepError err = true ↔
          ∃ e ∈ skipTable, errMessageContains err e.1 e.2 = true) ∧
    (∀ (err : Option GoError) (i j : Nat) (hi : i < skipTable.length)
        (hj : j < skipTable.length), i < j →
        errMessageContains err (skipTable.get ⟨i, hi⟩).1
          (skipTable.get ⟨i, hi⟩).2 = true →
        errMessageContains err (skipTable.get ⟨j, hj⟩).1
          (skipTable.get ⟨j, hj⟩).2 = true →
        skipSweepError err = true) ∧
    (∀ err : Option GoError,
        (∀ e ∈ skipTable, errMessageContains err e.1 e.2 = false) →
        skipSweepError err = false) := by
  have hchain : ∀ err : Option GoError,
      skipSweepError err = tableDecision skipTable err := by
    intro err
    simp [skipSweepError, tableDecision, skipTable]
  refine ⟨hchain, ?_, ?_, ?_⟩
  · intro err
    rw [hchain]
    exact tableDecision_eq_true_iff skipTable err
  · intro err i j hi hj _ hmi _
    rw [hchain]
    exact (tableDecision_eq_true_iff skipTable err).mpr
      ⟨skipTable.get ⟨i, hi⟩, List.get_mem skipTable i hi, hmi⟩
  · intro err hnone
    cases h : skipSweepError err with
    | false => rfl
    | true =>
      rw [hchain] at h
      obtain ⟨e, he, hm⟩ := (tableDecision_eq_true_iff skipTable err).mp h
      rw [hnone e he] at hm
      exact absurd hm (by decide)

/-- Witness for C7: an error matching both `InvalidParameterValue`
entries (table indices 2 and 3) is skipped — the earlier entry decides
— and an error matching no entry is a hard failure. -/
theorem claim_C7_witness :
    skipSweepError
        (some (GoError.awsErr "InvalidParameterValue"
          "not permitted in this API version for your account: Access Denied to API Version 2"))
      = true ∧
    skipSweepError (some (GoError.awsErr "AuthFailure" "denied"))
      = false :=
  ⟨claim_C7_skip_table_first_match.2.2.1
     (some (GoError.awsErr "InvalidParameterValue"
       "not permitted in this API version for your account: Access Denied to API Version 2"))
     2 3 (by decide) (by decide) (by decide) (by decide) (by decide),
   claim_C7_skip_table_first_match.2.2.2
     (some (GoError.awsErr "AuthFailure" "denied")) (by decide)⟩

/-- C8: when an item's retry phase ends in `TimedOut` while still
pending, the orchestrator performs exactly one additional non-retried
delete attempt for that item (one more call of the delete function,
whose result is surfaced); when the retry phase ends in `Target` or in
a non-timeout `Failure`, no extra attempt is made and the call count
stays that of the retry phase.  The retry driver and the `TimedOut`
test are modelled from §4.2 of the specification. -/
theorem claim_C8_timeout_exactly_one_extra_attempt :
    ∀ (fuel : Nat) (deleteFn : Nat → Option GoError),
      ((retryDriver (fun i => sweepRetryClassify (deleteFn i)) fuel 0).1
          = RetryOutcome.timedOut →
        sweepItem fuel deleteFn =
          (deleteFn
              (retryDriver (fun i => sweepRetryClassify (deleteFn i))
                fuel 0).2,
            (retryDriver (fun i => sweepRetryClassify (deleteFn i))
              fuel 0).2 + 1)) ∧
      ((retryDriver (fun i => sweepRetryClassify (deleteFn i)) fuel 0).1
          = RetryOutcome.target →
        sweepItem fuel deleteFn =
          (none,
            (retryDriver (fun i => sweepRetryClassify (deleteFn i))
              fuel 0).2)) ∧
      (∀ e : GoError,
        (retryDriver (fun i => sweepRetryClassify (deleteFn i)) fuel 0).1
            = RetryOutcome.failure e →
        sweepItem fuel deleteFn =
          (some e,
            (retryDriver (fun i => sweepRetryClassify (deleteFn i))
              fuel 0).2)) := by
  intro fuel deleteFn
  refine ⟨?_, ?_, ?_⟩
  · intro h; simp [sweepItem, h]
  · intro h; simp [sweepItem, h]
  · intro e h; simp [sweepItem, h]

/-- Witness for C8: a delete that keeps throttling for the whole
timeout gets exactly one extra attempt (3 calls for 2 units of fuel),
while a first-call success or a first-call fatal error gets none. -/
theorem claim_C8_witness :
    sweepItem 2
        (fun _ => some (GoError.awsErr "ThrottlingException" "Rate exceeded"))
      = (some (GoError.awsErr "ThrottlingException" "Rate exceeded"), 3) ∧
    sweepItem 1 (fun _ => none) = (none, 1) ∧
    sweepItem 1 (fun _ => some (GoError.plainErr "boom"))
      = (some (GoError.plainErr "boom"), 1) :=
  ⟨(claim_C8_timeout_exactly_one_extra_attempt 2
      (fun _ => some (GoError.awsErr "ThrottlingException"
        "Rate exceeded"))).1 (by decide),
   (claim_C8_timeout_exactly_one_extra_attempt 1 (fun _ => none)).2.1
     (by decide),
   (claim_C8_timeout_exactly_one_extra_attempt 1
      (fun _ => some (GoError.plainErr "boom"))).2.2 _ (by decide)⟩

/-- C9 counterexample: `SweeperClients` is an unsynchronized map, so
exactly-once construction per region fails under concurrent access: in
the interleaving where both workers read the empty cache before either
stores (schedule A-check, B-check, A-store, B-store), both construct a
client for the same region — two constructions, not one. -/
theorem claim_C9_counterexample :
    (sweepRaceRun "us-west-2" 1 2 [false, true, false, true]
        sweepRaceInit).constructions = 2 ∧
    (sweepRaceRun "us-west-2" 1 2 [false, true, false, true]
        sweepRaceInit).phaseA = SweepWorkerPhase.done (some 1) ∧
    (sweepRaceRun "us-west-2" 1 2 [false, true, false, true]
        sweepRaceInit).phaseB = SweepWorkerPhase.done (some 2) := by
  decide

/-- C9 amended: in sequential use, `SharedRegionalSweepClient` is an
exactly-once memoization: the first successful call for a region
constructs one client and stores it, and a subsequent call for the same
region returns the stored client with no construction and an unchanged
cache.  (Under concurrent access the unsynchronized check-then-store
admits duplicate construction.) -/
theorem claim_C9_amended_sequential_exactly_once :
    ∀ (construct : String → Except GoError Nat) (cache : SweepCache)
      (region : String) (client : Nat),
      cacheLookup cache region = none →
      construct region = .ok client →
      sharedRegionalSweepClient construct cache region =
        (.ok client, cacheStore cache region client, 1) ∧
      sharedRegionalSweepClient construct
          (cacheStore cache region client) region =
        (.ok client, cacheStore cache region client, 0) := by
  intro construct cache region client hmiss hok
  constructor
  · simp [sharedRegionalSweepClient, hmiss, hok]
  · simp [sharedRegionalSweepClient, cacheLookup_cacheStore]

/-- Witness for the amended C9: a concrete region and constructor;
the first call constructs and stores, the second reuses. -/
theorem claim_C9_amended_witness :
    sharedRegionalSweepClient (fun _ => .ok 7) [] "us-east-1" =
      (.ok 7, [("us-east-1", 7)], 1) ∧
    sharedRegionalSweepClient (fun _ => .ok 7) [("us-east-1", 7)]
        "us-east-1" = (.ok 7, [("us-east-1", 7)], 0) :=
  ⟨(claim_C9_amended_sequential_exactly_once (fun _ => .ok 7) []
      "us-east-1" 7 rfl rfl).1,
   (claim_C9_amended_sequential_exactly_once (fun _ => .ok 7) []
      "us-east-1" 7 rfl rfl).2⟩

/-- C10: the closure returned by `StatusEBSSnapshotImport` is claimed
total, but on a describe response whose first import snapshot task is
non-nil with a nil `SnapshotTaskDetail` the Go body dereferences the
nil `detail` pointer (`detail.Status`) and panics instead of returning
a triple; the embedding returns `none` exactly on that run-time
failure. -/
theorem claim_C10_nil_detail_dereference :
    statusEBSSnapshotImport (some [some ⟨none⟩]) none = none := by
  decide

end TFAWS
